import Mathlib

/-!
Verification of the mobile init orchestrator and its template helper
library (`tooling/cli/src/mobile/init.rs`).

The template helpers operate on JSON parameter values supplied by the
rendering engine; we embed the JSON value type, the parameter-access
functions `get_str` / `get_str_array`, each registered helper, the
`app_root` context accessor and the path prefix/unprefix pair, and the
orchestrator `exec` as an explicit step sequence over a record of
collaborator outcomes.
-/

/-- JSON values, as seen by the template helpers (serde_json `Value`). -/
inductive Json where
  | null : Json
  | bool (b : Bool) : Json
  | num (n : Int) : Json
  | str (s : String) : Json
  | arr (xs : List Json) : Json
  | obj (kvs : List (String × Json)) : Json

/-- serde_json `Value::as_str`: `some` exactly on string values. -/
def Json.asStr : Json → Option String
  | .str s => some s
  | _ => none

/-- serde_json `Value::as_array`: `some` exactly on array values. -/
def Json.asArray : Json → Option (List Json)
  | .arr xs => some xs
  | _ => none

/-- Key lookup in a JSON object field list (serde_json `Value::get`
on an object; `none` on non-objects). -/
def lookupKv : List (String × Json) → String → Option Json
  | [], _ => none
  | (k, v) :: rest, key => if k = key then some v else lookupKv rest key

/-- serde_json `Value::get` with a string key. -/
def Json.get (j : Json) (key : String) : Option Json :=
  match j with
  | .obj kvs => lookupKv kvs key
  | _ => none

/-- The render errors produced in `init.rs` via `RenderError::new`,
as a closed set of kinds (each corresponds to one message string in
the source). -/
inductive RenderError where
  /-- "X helper wasn't given an array", for helper name X. -/
  | missingArray (helperName : String) : RenderError
  /-- "app missing from template data." -/
  | appMissing : RenderError
  /-- "app.root-dir missing from template data." -/
  | rootDirMissing : RenderError
  /-- "app.root-dir contained invalid UTF-8." -/
  | rootDirInvalid : RenderError
  /-- "Attempted to unprefix a path that wasn't in the app root dir." -/
  | pathNotUnderRoot : RenderError
deriving Repr, DecidableEq

/-- `get_str`: first helper parameter as a string, defaulting to `""`
when the parameter is missing or not a string
(`helper.param(0).and_then(|v| v.value().as_str()).unwrap_or("")`). -/
def get_str (param : Option Json) : String :=
  (param.bind Json.asStr).getD ""

/-- The `collect::<Option<Vec<String>>>` over
`arr.iter().map(|val| val.as_str().map(formatter))`: `some` of the
formatted strings when every element is a string, `none` otherwise
(short-circuiting at the first non-string). -/
def collectStr (formatter : String → String) : List Json → Option (List String)
  | [] => some []
  | v :: vs =>
    match v.asStr with
    | some s => (collectStr formatter vs).map (fun rest => formatter s :: rest)
    | none => none

/-- `get_str_array`: first helper parameter as an array of strings,
each element passed through `formatter`; `none` when the parameter is
missing, not an array, or has a non-string element. -/
def get_str_array (param : Option Json) (formatter : String → String) :
    Option (List String) :=
  param.bind (fun v => (v.asArray).bind (collectStr formatter))

/-- One escaped character of `handlebars::html_escape`.
Modelled from the spec: the external escaping function of the rendering
engine is not part of this repository; the spec only requires it to be a
total string transformation ("HTML-escape the string"). -/
def escapeHtmlChar (c : Char) : String :=
  if c = '<' then "&lt;"
  else if c = '>' then "&gt;"
  else if c = Char.ofNat 34 then "&quot;"
  else if c = '&' then "&amp;"
  else if c = Char.ofNat 39 then "&#x27;"
  else if c = Char.ofNat 96 then "&#x60;"
  else if c = '=' then "&#x3d;"
  else String.singleton c

/-- Modelled from the spec: `handlebars::html_escape` as a total
character-wise escaping function. -/
def htmlEscapeStr (s : String) : String :=
  String.join (s.data.map escapeHtmlChar)

/-- The `html-escape` helper: always succeeds, writing the escaped
first parameter (taken via `get_str`). -/
def html_escape (param : Option Json) : Except RenderError String :=
  .ok (htmlEscapeStr (get_str param))

/-- One escaped character of Rust's `{:?}` (Debug) formatting for `str`.
Modelled from the spec: the standard-library quoting routine is not part
of this repository ("debug-style quoting"). -/
def escapeDebugChar (c : Char) : List Char :=
  if c = Char.ofNat 34 then [Char.ofNat 92, Char.ofNat 34]
  else if c = Char.ofNat 92 then [Char.ofNat 92, Char.ofNat 92]
  else if c = Char.ofNat 10 then [Char.ofNat 92, 'n']
  else if c = Char.ofNat 13 then [Char.ofNat 92, 'r']
  else if c = Char.ofNat 9 then [Char.ofNat 92, 't']
  else [c]

/-- Modelled from the spec: Rust `format!("{:?}", s)` for a string `s` —
the string wrapped in double quotes with special characters escaped. -/
def rustDebugQuote (s : String) : String :=
  String.mk (Char.ofNat 34 :: (s.data.map escapeDebugChar).flatten ++ [Char.ofNat 34])

/-- The `join` helper: the parameter as a string array joined with
`", "`, or the missing-array render error. -/
def joinHelper (param : Option Json) : Except RenderError String :=
  match get_str_array param (fun s => s) with
  | some xs => .ok (String.intercalate ", " xs)
  | none => .error (.missingArray "join")

/-- The `quote-and-join` helper: each element debug-quoted, joined with
`", "`, or the missing-array render error. -/
def quoteAndJoinHelper (param : Option Json) : Except RenderError String :=
  match get_str_array param rustDebugQuote with
  | some xs => .ok (String.intercalate ", " xs)
  | none => .error (.missingArray "quote-and-join")

/-- The `quote-and-join-colon-prefix` helper: each element prefixed with
`:` then debug-quoted, joined with `", "`, or the missing-array render
error. -/
def quoteAndJoinColonHelper (param : Option Json) : Except RenderError String :=
  match get_str_array param (fun s => rustDebugQuote (":" ++ s)) with
  | some xs => .ok (String.intercalate ", " xs)
  | none => .error (.missingArray "quote-and-join-colon-prefix")

/-- Split a character list at a separator character; the list of
(possibly empty) chunks. Mirrors Rust `str::split(sep)`. -/
def splitOnChar (sep : Char) : List Char → List (List Char)
  | [] => [[]]
  | c :: cs =>
    match splitOnChar sep cs with
    | [] => if c = sep then [[], [c]] else [[c]]
    | r :: rs => if c = sep then [] :: r :: rs else (c :: r) :: rs

/-- Modelled from the spec: the external `util::reverse_domain` —
"reverse a dot-separated domain": split on dots, reverse the segments,
rejoin with dots. -/
def reverseDomainStr (s : String) : String :=
  String.intercalate "." (((splitOnChar '.' s.data).reverse).map String.mk)

/-- Modelled from the spec: a snake-case conversion ("convert to
snake_case") as a total character-wise transformation, standing in for
the external case-conversion library. -/
def snakeChar (c : Char) : List Char :=
  if c.isUpper then [Char.ofNat 95, c.toLower]
  else if c = '-' ∨ c = ' ' then [Char.ofNat 95]
  else [c]

/-- Modelled from the spec: total snake-case string conversion. -/
def snakeCaseStr (s : String) : String :=
  String.mk (s.data.map snakeChar).flatten

/-- The `snake-case` helper: always succeeds. -/
def snake_case (param : Option Json) : Except RenderError String :=
  .ok (snakeCaseStr (get_str param))

/-- The `reverse-domain` helper: always succeeds. -/
def reverse_domain (param : Option Json) : Except RenderError String :=
  .ok (reverseDomainStr (get_str param))

/-- The `reverse-domain-snake-case` helper: reverse-domain then
snake-case; always succeeds. -/
def reverse_domain_snake_case (param : Option Json) : Except RenderError String :=
  .ok (snakeCaseStr (reverseDomainStr (get_str param)))

/-- `app_root`: read `app.root-dir` from the template context data,
with the three failure kinds of the source. -/
def app_root (ctx : Json) : Except RenderError String :=
  match ctx.get "app" with
  | none => .error .appMissing
  | some app =>
    match app.get "root-dir" with
    | none => .error .rootDirMissing
    | some root =>
      match root.asStr with
      | none => .error .rootDirInvalid
      | some s => .ok s

/-- The root directory with exactly one trailing separator appended
when it lacks one. -/
def normRoot (root : String) : String :=
  if root.data.getLast? = some '/' then root else root ++ "/"

/-- Whether a path string is absolute (starts with the separator). -/
def pathIsAbsolute (p : String) : Bool :=
  p.data.head? = some '/'

/-- Modelled from the spec: the external `util::prefix_path` — "join
with app.root-dir". Joining keeps an absolute path unchanged (as the
external path join does) and otherwise appends the path to the root with a
single separator. -/
def prefix_path (root p : String) : String :=
  if pathIsAbsolute p then p else normRoot root ++ p

/-- Modelled from the spec: the external `util::unprefix_path` — "strip
app.root-dir prefix, producing a path relative to the project root",
failing when the path is not lexically under the root. -/
def unprefix_path (root p : String) : Except RenderError String :=
  if (normRoot root).data.isPrefixOf p.data
  then .ok (String.mk (p.data.drop (normRoot root).data.length))
  else .error .pathNotUnderRoot

/-- The `prefix-path` helper: `util::prefix_path(app_root(ctx)?, get_str(helper))`.
(The source additionally fails on non-UTF-8 output; Lean strings are
always valid UTF-8, so that branch is vacuous here.) -/
def prefix_path_helper (ctx : Json) (param : Option Json) :
    Except RenderError String :=
  match app_root ctx with
  | .error e => .error e
  | .ok root => .ok (prefix_path root (get_str param))

/-- The `unprefix-path` helper:
`util::unprefix_path(app_root(ctx)?, get_str(helper))`, with the
strip failure mapped to the path-not-under-root render error. -/
def unprefix_path_helper (ctx : Json) (param : Option Json) :
    Except RenderError String :=
  match app_root ctx with
  | .error e => .error e
  | .ok root => unprefix_path root (get_str param)

/-- A template context whose `app.root-dir` is `R` (the shape the
orchestrator builds from the Config `app` facet). -/
def appCtx (R : String) : Json :=
  Json.obj [("app", Json.obj [("root-dir", Json.str R)])]


/-- Requested mobile platform (`Target`). -/
inductive Target where
  | android : Target
  | ios : Target
deriving Repr, DecidableEq

/-- The Android environment discovery error (`android::env::Error`),
abstracted to its classification (`sdk_or_ndk_issue()`) plus an opaque
diagnostic. -/
structure AndroidEnvError where
  sdkOrNdkIssue : Bool
  msg : String
deriving Repr, DecidableEq

/-- The `app` facet of the Config: the fields `exec` and the helpers
read (asset directory, project root directory). -/
structure App where
  assetDir : String
  rootDir : String
deriving Repr, DecidableEq

/-- The immutable Config: its `app` facet (the `android`/`apple`
facets are opaque to the orchestrator logic modelled here). -/
structure Config where
  app : App
deriving Repr, DecidableEq

/-- The DotCargo Store: the one field this tool sets, plus the foreign
content it must preserve (opaque). -/
structure DotCargo where
  defaultTarget : Option String
  foreign : List (String × String)
deriving Repr, DecidableEq

/-- The `Error` enum of `init.rs`, with external causes abstracted to
diagnostic strings. -/
inductive Error where
  | invalidTauriConfig (msg : String) : Error
  | assetDirCreation (assetDir : String) (cause : String) : Error
  | lldbExtensionInstall (cause : String) : Error
  | dotCargoLoad (cause : String) : Error
  | hostTargetTripleDetection (cause : String) : Error
  | iosInit (cause : String) : Error
  | androidEnv (e : AndroidEnvError) : Error
  | androidInit (cause : String) : Error
  | dotCargoWrite (cause : String) : Error
  | openInEditor (cause : String) : Error
deriving Repr, DecidableEq

/-- A user-facing report: `Report::action_request` (carrying the
Android environment error it describes) or `Report::victory`. -/
inductive Report where
  | actionRequest (err : AndroidEnvError) : Report
  | victory : Report
deriving Repr, DecidableEq

/-- Outcomes of every external collaborator call `exec` can make, fixed
up front: the shallow embedding of the run's environment. Function-typed
fields receive the data the source passes to the collaborator. -/
structure World where
  /-- `get_tauri_config` / `get_config` combined outcome. -/
  tauriConfig : Except String Config
  /-- `asset_dir.is_dir()`. -/
  assetDirIsDir : Bool
  /-- `fs::create_dir_all(&asset_dir)`. -/
  createAssetDir : Except String Unit
  /-- `util::command_present("code").unwrap_or_default()`. -/
  codePresent : Bool
  /-- the LLDB-extension install command outcome. -/
  lldbInstall : Except String Unit
  /-- `dot_cargo::DotCargo::load(config.app())`. -/
  dotCargoLoad : Except String DotCargo
  /-- `util::host_target_triple()`. -/
  hostTriple : Except String String
  /-- `android::env::Env::new()` (the `Env` itself is opaque). -/
  androidEnv : Except AndroidEnvError Unit
  /-- `super::android::project::gen`, receiving the template context and
  the mutable DotCargo Store (it may further mutate the store). -/
  androidGen : List (String × Json) → DotCargo → Except String DotCargo
  /-- whether this host can generate Xcode projects
  (`cfg(target_os = "macos")`). -/
  canGenerateIos : Bool
  /-- `super::ios::project::gen`. -/
  iosGen : Except String Unit
  /-- `dot_cargo.write(config.app())` on the given store value. -/
  dotCargoWrite : DotCargo → Except String Unit
  /-- `util::open_in_editor(cwd)`. -/
  openInEditorRun : Except String Unit
  /-- `std::env::args_os().next()` (lossy-decoded). -/
  argv0 : Option String

/-- Observable side effects of one `exec` run. -/
structure ExecTrace where
  reports : List Report
  lldbAttempted : Bool
  androidGenInvoked : Bool
  iosGenInvoked : Bool
  dotCargoWritten : Bool
  openAttempted : Bool
deriving Repr, DecidableEq

/-- The empty trace (no step has run). -/
def ExecTrace.empty : ExecTrace :=
  { reports := [], lldbAttempted := false, androidGenInvoked := false,
    iosGenInvoked := false, dotCargoWritten := false, openAttempted := false }

deriving instance DecidableEq for Except

/-- Return value and trace of one `exec` run. -/
structure ExecResult where
  result : Except Error Config
  trace : ExecTrace
deriving Repr, DecidableEq

/-- Serialization of the `app` Config facet into the template context
(`map.insert("app", config.app())`). -/
def appJson (a : App) : Json :=
  Json.obj [("asset-dir", Json.str a.assetDir), ("root-dir", Json.str a.rootDir)]

/-- The map built by the `handlebars` function: the `app` and `android`
facets (the `apple` facet is macOS-only and opaque here). -/
def handlebarsMap (config : Config) : List (String × Json) :=
  [("app", appJson config.app), ("android", Json.obj [])]

/-- The `"tauri-binary"` value: `args_os().next()` decoded, falling back
to `"cargo"` when there is no argv0. -/
def tauriBinary (argv0 : Option String) : String :=
  match argv0 with
  | some s => s
  | none => "cargo"

/-- The template context after the `BuildTemplateContext` step: the
`handlebars` map plus the late `"tauri-binary"` insertion. -/
def buildTemplateContext (config : Config) (argv0 : Option String) :
    List (String × Json) :=
  handlebarsMap config ++ [("tauri-binary", Json.str (tauriBinary argv0))]

/-- The tail of `exec` shared by all delegation branches: write the
DotCargo Store, print the victory report, and optionally open the
project in an editor. -/
def finishSteps (openInEditor : Bool) (w : World) (config : Config)
    (dc : DotCargo) (tr : ExecTrace) : ExecResult :=
  match w.dotCargoWrite dc with
  | .error c => { result := .error (.dotCargoWrite c), trace := tr }
  | .ok _ =>
    let tr2 := { tr with dotCargoWritten := true,
                         reports := tr.reports ++ [Report.victory] }
    if openInEditor then
      match w.openInEditorRun with
      | .error c =>
        { result := .error (.openInEditor c), trace := { tr2 with openAttempted := true } }
      | .ok _ =>
        { result := .ok config, trace := { tr2 with openAttempted := true } }
    else
      { result := .ok config, trace := tr2 }

/-- The init orchestrator `exec`, as the ordered step sequence of the
source: LoadConfig, EnsureAssetDir, OptionalDebuggerExtensionInstall,
LoadDotCargo, DetectHostTriple (+ set default target),
BuildTemplateContext, PlatformDelegation, PersistDotCargo, Report,
optional open-in-editor. -/
def exec (target : Target) (nonInteractive skipDevTools reinstallDeps
    openInEditor : Bool) (w : World) : ExecResult :=
  match w.tauriConfig with
  | .error e => { result := .error (.invalidTauriConfig e), trace := ExecTrace.empty }
  | .ok config =>
    match (if w.assetDirIsDir then Except.ok () else w.createAssetDir) with
    | .error c =>
      { result := .error (.assetDirCreation config.app.assetDir c),
        trace := ExecTrace.empty }
    | .ok _ =>
      let attemptLldb : Bool := !skipDevTools && w.codePresent
      let tr1 : ExecTrace := { ExecTrace.empty with lldbAttempted := attemptLldb }
      match (if attemptLldb then w.lldbInstall else Except.ok ()) with
      | .error c => { result := .error (.lldbExtensionInstall c), trace := tr1 }
      | .ok _ =>
        match w.dotCargoLoad with
        | .error c => { result := .error (.dotCargoLoad c), trace := tr1 }
        | .ok dc0 =>
          match w.hostTriple with
          | .error c =>
            { result := .error (.hostTargetTripleDetection c), trace := tr1 }
          | .ok triple =>
            let dc1 : DotCargo := { dc0 with defaultTarget := some triple }
            let map := buildTemplateContext config w.argv0
            match target with
            | .android =>
              match w.androidEnv with
              | .ok _ =>
                match w.androidGen map dc1 with
                | .error c =>
                  { result := .error (.androidInit c),
                    trace := { tr1 with androidGenInvoked := true } }
                | .ok dc2 =>
                  finishSteps openInEditor w config dc2
                    { tr1 with androidGenInvoked := true }
              | .error e =>
                if e.sdkOrNdkIssue then
                  finishSteps openInEditor w config dc1
                    { tr1 with reports := tr1.reports ++ [Report.actionRequest e] }
                else
                  { result := .error (.androidEnv e), trace := tr1 }
            | .ios =>
              if w.canGenerateIos then
                match w.iosGen with
                | .error c =>
                  { result := .error (.iosInit c),
                    trace := { tr1 with iosGenInvoked := true } }
                | .ok _ =>
                  finishSteps openInEditor w config dc1
                    { tr1 with iosGenInvoked := true }
              else
                finishSteps openInEditor w config dc1 tr1

/-- The arguments `command` passes to `exec` (the CLI entry point fixes
skip-dev-tools, reinstall-deps and open-in-editor). -/
structure CommandCall where
  nonInteractive : Bool
  skipDevTools : Bool
  reinstallDeps : Bool
  openInEditor : Bool
deriving Repr, DecidableEq

/-- The CLI entry point `command`: `options.ci = options.ci || env CI set`,
then `exec(target, …, options.ci.into(), SkipDevTools::No,
ReinstallDeps::Yes, OpenInEditor::No, …)`. -/
def command (ciFlag : Bool) (ciEnvSet : Bool) : CommandCall :=
  { nonInteractive := ciFlag || ciEnvSet,
    skipDevTools := false,
    reinstallDeps := true,
    openInEditor := false }

/-- Whether a report is an action request. -/
def Report.isActionRequest : Report → Bool
  | .actionRequest _ => true
  | .victory => false

/-- Number of action-request reports in a report list. -/
def countActionRequests (rs : List Report) : Nat :=
  (rs.filter Report.isActionRequest).length

/-- The path `p` is lexically under the root directory: the root (with
its trailing separator) is a prefix of `p`. -/
def lexUnderRoot (root p : String) : Prop :=
  (normRoot root).data <+: p.data

/-- A concrete Config for witnesses. -/
def cfg0 : Config :=
  { app := { assetDir := "assets", rootDir := "root" } }

/-- A concrete DotCargo Store for witnesses. -/
def dc0 : DotCargo :=
  { defaultTarget := none, foreign := [("k", "v")] }

/-- A concrete world in which the Android environment discovery fails
with an SDK/NDK-classified error and every other collaborator succeeds. -/
def wRecoverable : World :=
  { tauriConfig := .ok cfg0,
    assetDirIsDir := true,
    createAssetDir := .ok (),
    codePresent := false,
    lldbInstall := .ok (),
    dotCargoLoad := .ok dc0,
    hostTriple := .ok "x86_64-unknown-linux-gnu",
    androidEnv := .error { sdkOrNdkIssue := true, msg := "sdk missing" },
    androidGen := fun _ dc => .ok dc,
    canGenerateIos := false,
    iosGen := .ok (),
    dotCargoWrite := fun _ => .ok (),
    openInEditorRun := .ok (),
    argv0 := some "tauri" }

/-- A concrete world in which the Android environment discovery fails
with an error NOT classified as an SDK/NDK issue. -/
def wFatal : World :=
  { wRecoverable with androidEnv := .error { sdkOrNdkIssue := false, msg := "broken env" } }

theorem collectStr_map_str (f : String → String) (xs : List String) :
    collectStr f (xs.map Json.str) = some (xs.map f) := by
  induction xs with
  | nil => rfl
  | cons x xs ih => simp [collectStr, Json.asStr, ih]

theorem collectStr_eq_none_iff (f : String → String) (ys : List Json) :
    collectStr f ys = none ↔ ∃ y ∈ ys, y.asStr = none := by
  induction ys with
  | nil => simp [collectStr]
  | cons y ys ih =>
    cases h : y.asStr with
    | none => simp [collectStr, h]
    | some s => simp [collectStr, h, ih, Option.map_eq_none']

theorem collectStr_isSome_iff (f : String → String) (ys : List Json) :
    (collectStr f ys).isSome = true ↔ ∀ y ∈ ys, (y.asStr).isSome = true := by
  induction ys with
  | nil => simp [collectStr]
  | cons y ys ih =>
    cases h : y.asStr with
    | none => simp [collectStr, h]
    | some s => simp [collectStr, h, ih]

/-- C4: the helpers `join`, `quote-and-join` and
`quote-and-join-colon-prefix` fail with the missing-array error for
every parameter whose value is not an array, and on an array of strings
they succeed, writing the elements (plain, debug-quoted, or
colon-prefixed-then-quoted respectively) joined with `", "`. -/
theorem arrayHelpers_missingArray_and_success (v : Json) (xs : List String)
    (h : v.asArray = none) :
    joinHelper (some v) = .error (.missingArray "join") ∧
    quoteAndJoinHelper (some v) = .error (.missingArray "quote-and-join") ∧
    quoteAndJoinColonHelper (some v) =
      .error (.missingArray "quote-and-join-colon-prefix") ∧
    joinHelper (some (Json.arr (xs.map Json.str))) =
      .ok (String.intercalate ", " xs) ∧
    quoteAndJoinHelper (some (Json.arr (xs.map Json.str))) =
      .ok (String.intercalate ", " (xs.map rustDebugQuote)) ∧
    quoteAndJoinColonHelper (some (Json.arr (xs.map Json.str))) =
      .ok (String.intercalate ", " (xs.map (fun s => rustDebugQuote (":" ++ s)))) := by
  refine ⟨?_, ?_, ?_, ?_, ?_, ?_⟩
  · simp [joinHelper, get_str_array, h]
  · simp [quoteAndJoinHelper, get_str_array, h]
  · simp [quoteAndJoinColonHelper, get_str_array, h]
  · simp [joinHelper, get_str_array, Json.asArray, collectStr_map_str]
  · simp [quoteAndJoinHelper, get_str_array, Json.asArray, collectStr_map_str]
  · simp [quoteAndJoinColonHelper, get_str_array, Json.asArray, collectStr_map_str]

/-- C4 witness: `join("x")` (a string parameter) fails with the
missing-array error for all three helpers, and `["a", "b"]` succeeds. -/
theorem arrayHelpers_missingArray_and_success_witness :
    joinHelper (some (Json.str "x")) = .error (.missingArray "join") ∧
    quoteAndJoinHelper (some (Json.str "x")) = .error (.missingArray "quote-and-join") ∧
    quoteAndJoinColonHelper (some (Json.str "x")) =
      .error (.missingArray "quote-and-join-colon-prefix") ∧
    joinHelper (some (Json.arr (["a", "b"].map Json.str))) =
      .ok (String.intercalate ", " ["a", "b"]) ∧
    quoteAndJoinHelper (some (Json.arr (["a", "b"].map Json.str))) =
      .ok (String.intercalate ", " (["a", "b"].map rustDebugQuote)) ∧
    quoteAndJoinColonHelper (some (Json.arr (["a", "b"].map Json.str))) =
      .ok (String.intercalate ", " (["a", "b"].map (fun s => rustDebugQuote (":" ++ s)))) :=
  arrayHelpers_missingArray_and_success (Json.str "x") ["a", "b"] rfl

theorem helperIsOk_iff (f : String → String) (ys : List Json) (ename : String) :
    ((match collectStr f ys with
      | some xs => Except.ok (String.intercalate ", " xs)
      | none => Except.error (RenderError.missingArray ename)) :
        Except RenderError String).isOk = true ↔
      ∀ y ∈ ys, (y.asStr).isSome = true := by
  rw [← collectStr_isSome_iff f ys]
  cases hc : collectStr f ys with
  | none => simp [hc, Except.isOk, Except.toBool]
  | some l => simp [hc, Except.isOk, Except.toBool]

/-- C10: the three array helpers fail with the missing-array error as
soon as some element of the array parameter is not a string, and they
succeed exactly when every element is a string. -/
theorem arrayHelpers_element_strings (ys : List Json) :
    ((∃ y ∈ ys, y.asStr = none) →
      joinHelper (some (Json.arr ys)) = .error (.missingArray "join") ∧
      quoteAndJoinHelper (some (Json.arr ys)) =
        .error (.missingArray "quote-and-join") ∧
      quoteAndJoinColonHelper (some (Json.arr ys)) =
        .error (.missingArray "quote-and-join-colon-prefix")) ∧
    ((joinHelper (some (Json.arr ys))).isOk = true ↔
      ∀ y ∈ ys, (y.asStr).isSome = true) ∧
    ((quoteAndJoinHelper (some (Json.arr ys))).isOk = true ↔
      ∀ y ∈ ys, (y.asStr).isSome = true) ∧
    ((quoteAndJoinColonHelper (some (Json.arr ys))).isOk = true ↔
      ∀ y ∈ ys, (y.asStr).isSome = true) := by
  refine ⟨?_, ?_, ?_, ?_⟩
  · intro hex
    refine ⟨?_, ?_, ?_⟩
    · simp [joinHelper, get_str_array, Json.asArray,
        (collectStr_eq_none_iff _ ys).2 hex]
    · simp [quoteAndJoinHelper, get_str_array, Json.asArray,
        (collectStr_eq_none_iff _ ys).2 hex]
    · simp [quoteAndJoinColonHelper, get_str_array, Json.asArray,
        (collectStr_eq_none_iff _ ys).2 hex]
  · exact helperIsOk_iff (fun s => s) ys "join"
  · exact helperIsOk_iff rustDebugQuote ys "quote-and-join"
  · exact helperIsOk_iff (fun s => rustDebugQuote (":" ++ s)) ys
      "quote-and-join-colon-prefix"

/-- C6: the string helpers html-escape, snake-case, reverse-domain and
reverse-domain-snake-case never fail: each returns success with a string
output for every parameter value (of any JSON type, or even a missing
parameter). -/
theorem stringHelpers_never_fail (param : Option Json) :
    (∃ s, html_escape param = .ok s) ∧
    (∃ s, snake_case param = .ok s) ∧
    (∃ s, reverse_domain param = .ok s) ∧
    (∃ s, reverse_domain_snake_case param = .ok s) :=
  ⟨⟨_, rfl⟩, ⟨_, rfl⟩, ⟨_, rfl⟩, ⟨_, rfl⟩⟩

/-- C9: when the CI environment variable is set, the CLI entry point
runs `exec` in non-interactive mode even if the ci flag was not passed;
when CI is unset, the mode is exactly what the ci flag requested. -/
theorem ci_env_forces_non_interactive (ciFlag ciEnvSet : Bool) :
    (ciEnvSet = true → (command ciFlag ciEnvSet).nonInteractive = true) ∧
    (ciEnvSet = false → (command ciFlag ciEnvSet).nonInteractive = ciFlag) := by
  constructor
  · rintro rfl; simp [command]
  · rintro rfl; simp [command]

/-- C9 witness: with the ci flag not passed but CI set, the run is
non-interactive. -/
theorem ci_env_forces_non_interactive_witness :
    (command false true).nonInteractive = true :=
  (ci_env_forces_non_interactive false true).1 rfl

theorem app_root_appCtx (R : String) : app_root (appCtx R) = .ok R := rfl

theorem unprefix_prefix (root p : String) (h : pathIsAbsolute p = false) :
    unprefix_path root (prefix_path root p) = .ok p := by
  have hp : prefix_path root p = normRoot root ++ p := by
    simp [prefix_path, h]
  have hdata : (normRoot root ++ p).data = (normRoot root).data ++ p.data := rfl
  have hpre : (normRoot root).data.isPrefixOf (normRoot root ++ p).data = true := by
    rw [hdata]
    exact List.isPrefixOf_iff_prefix.mpr (List.prefix_append _ _)
  rw [hp]
  unfold unprefix_path
  simp [hpre, hdata, List.drop_left]

/-- C1: for every root directory R and relative path P (in particular
every relative path not traversing outside R), evaluating the
unprefix-path helper on the result of the prefix-path helper — both
against a template context whose app.root-dir is R — yields P again. -/
theorem prefix_unprefix_roundtrip (R P : String) (h : pathIsAbsolute P = false) :
    prefix_path_helper (appCtx R) (some (Json.str P)) = .ok (prefix_path R P) ∧
    unprefix_path_helper (appCtx R) (some (Json.str (prefix_path R P))) = .ok P := by
  constructor
  · rfl
  · show unprefix_path R (get_str (some (Json.str (prefix_path R P)))) = .ok P
    exact unprefix_prefix R P h

/-- C1 witness: round-tripping the relative path a/b through the
prefix-path and unprefix-path helpers with root directory root. -/
theorem prefix_unprefix_roundtrip_witness :
    prefix_path_helper (appCtx "root") (some (Json.str "a/b")) =
      .ok (prefix_path "root" "a/b") ∧
    unprefix_path_helper (appCtx "root") (some (Json.str (prefix_path "root" "a/b"))) =
      .ok "a/b" :=
  prefix_unprefix_roundtrip "root" "a/b" (by decide)

/-- C5: the unprefix-path helper fails with the path-not-under-root
render error for every input path that is not lexically under the
app.root-dir of the template context; it never returns a stripped path
for such inputs. -/
theorem unprefix_outside_root_fails (R P : String) (h : ¬ lexUnderRoot R P) :
    unprefix_path_helper (appCtx R) (some (Json.str P)) =
      .error .pathNotUnderRoot := by
  show unprefix_path R P = .error .pathNotUnderRoot
  have hb : (normRoot R).data.isPrefixOf P.data = false := by
    rw [← Bool.not_eq_true, List.isPrefixOf_iff_prefix]
    exact h
  unfold unprefix_path
  simp [hb]

/-- C5 witness: the path elsewhere/x is not under the root directory
root, and unprefix-path fails on it. -/
theorem unprefix_outside_root_fails_witness :
    unprefix_path_helper (appCtx "root") (some (Json.str "elsewhere/x")) =
      .error .pathNotUnderRoot :=
  unprefix_outside_root_fails "root" "elsewhere/x" (by unfold lexUnderRoot; decide)

/-- C8 counterexample: a run whose argv0 is the empty string inserts
the empty string under tauri-binary, so the inserted value is not
non-empty for every run. -/
theorem tauriBinary_nonempty_counterexample :
    lookupKv (buildTemplateContext cfg0 (some "")) "tauri-binary" =
      some (Json.str "") ∧ ("" : String).length = 0 :=
  ⟨rfl, rfl⟩

/-- C8 (amended): after BuildTemplateContext the context maps
tauri-binary to the invoking binary name, falling back to "cargo" when
there is no argv0; the value is non-empty whenever argv0 is absent or
itself non-empty (an empty argv0 is inserted verbatim, as the
counterexample shows). -/
theorem tauriBinary_nonempty (cfg : Config) (argv0 : Option String)
    (h : argv0 ≠ some "") :
    lookupKv (buildTemplateContext cfg argv0) "tauri-binary" =
      some (Json.str (tauriBinary argv0)) ∧ tauriBinary argv0 ≠ "" := by
  constructor
  · rfl
  · cases argv0 with
    | none => simp [tauriBinary]
    | some s =>
      simp only [tauriBinary]
      intro hs
      exact h (by rw [hs])

/-- C8 witness: a run invoked as tauri maps tauri-binary to the
non-empty string tauri. -/
theorem tauriBinary_nonempty_witness :
    lookupKv (buildTemplateContext cfg0 (some "tauri")) "tauri-binary" =
      some (Json.str (tauriBinary (some "tauri"))) ∧
    tauriBinary (some "tauri") ≠ "" :=
  tauriBinary_nonempty cfg0 (some "tauri") (by decide)

theorem exec_front_asset (w : World)
    (hasset : w.assetDirIsDir = true ∨ w.createAssetDir = .ok ()) :
    (if w.assetDirIsDir then Except.ok () else w.createAssetDir) = Except.ok () := by
  rcases hasset with hb | hc
  · simp [hb]
  · cases hb : w.assetDirIsDir <;> simp [hc]

theorem exec_front_lldb (w : World) (sdt : Bool)
    (hlldb : sdt = true ∨ w.codePresent = false ∨ w.lldbInstall = .ok ()) :
    (if sdt = false ∧ w.codePresent = true then w.lldbInstall else Except.ok ()) =
      Except.ok () := by
  rcases hlldb with rfl | hc | hl
  · simp
  · simp [hc]
  · simp [hl]

/-- C2: with target Android, when the environment discovery fails with
an error classified as an SDK/NDK issue (and every other collaborator
succeeds), the run does not abort: exactly one action-request report is
emitted, the Android project generator is not invoked, the DotCargo
Store is still written, and exec returns the Config successfully. -/
theorem exec_android_sdk_issue_recoverable
    (ni sdt rd oie : Bool) (w : World) (cfg : Config) (e : AndroidEnvError)
    (hcfg : w.tauriConfig = .ok cfg)
    (hasset : w.assetDirIsDir = true ∨ w.createAssetDir = .ok ())
    (hlldb : sdt = true ∨ w.codePresent = false ∨ w.lldbInstall = .ok ())
    (hload : ∃ dc, w.dotCargoLoad = .ok dc)
    (htriple : ∃ t, w.hostTriple = .ok t)
    (henv : w.androidEnv = .error e)
    (hsdk : e.sdkOrNdkIssue = true)
    (hwrite : ∀ dc, w.dotCargoWrite dc = .ok ())
    (hopen : oie = false ∨ w.openInEditorRun = .ok ()) :
    (exec .android ni sdt rd oie w).result = .ok cfg ∧
    countActionRequests (exec .android ni sdt rd oie w).trace.reports = 1 ∧
    (exec .android ni sdt rd oie w).trace.androidGenInvoked = false ∧
    (exec .android ni sdt rd oie w).trace.dotCargoWritten = true := by
  obtain ⟨dc, hdc⟩ := hload
  obtain ⟨t, ht⟩ := htriple
  have h1 := exec_front_asset w hasset
  have h2 := exec_front_lldb w sdt hlldb
  rcases hopen with rfl | hop
  · simp [exec, hcfg, h1, h2, hdc, ht, henv, hsdk, finishSteps, hwrite,
      ExecTrace.empty, countActionRequests, Report.isActionRequest]
  · cases oie <;>
      simp [exec, hcfg, h1, h2, hdc, ht, henv, hsdk, finishSteps, hwrite, hop,
        ExecTrace.empty, countActionRequests, Report.isActionRequest]

/-- C2 witness: the recoverable world — SDK/NDK issue, everything else
succeeding — run with target Android. -/
theorem exec_android_sdk_issue_recoverable_witness :
    (exec .android false false true false wRecoverable).result = .ok cfg0 ∧
    countActionRequests (exec .android false false true false wRecoverable).trace.reports = 1 ∧
    (exec .android false false true false wRecoverable).trace.androidGenInvoked = false ∧
    (exec .android false false true false wRecoverable).trace.dotCargoWritten = true :=
  exec_android_sdk_issue_recoverable false false true false wRecoverable cfg0
    { sdkOrNdkIssue := true, msg := "sdk missing" } rfl (Or.inl rfl)
    (Or.inr (Or.inl rfl)) ⟨dc0, rfl⟩ ⟨"x86_64-unknown-linux-gnu", rfl⟩ rfl rfl
    (fun _ => rfl) (Or.inl rfl)

/-- C3: with target Android, when the environment discovery fails with
an error NOT classified as an SDK/NDK issue, exec returns that
AndroidEnv error and no later step executes: the DotCargo Store is not
written, the generator is not invoked, no editor open is attempted, and
no report (in particular no Victory report) is emitted. -/
theorem exec_android_env_fatal
    (ni sdt rd oie : Bool) (w : World) (cfg : Config) (e : AndroidEnvError)
    (hcfg : w.tauriConfig = .ok cfg)
    (hasset : w.assetDirIsDir = true ∨ w.createAssetDir = .ok ())
    (hlldb : sdt = true ∨ w.codePresent = false ∨ w.lldbInstall = .ok ())
    (hload : ∃ dc, w.dotCargoLoad = .ok dc)
    (htriple : ∃ t, w.hostTriple = .ok t)
    (henv : w.androidEnv = .error e)
    (hsdk : e.sdkOrNdkIssue = false) :
    (exec .android ni sdt rd oie w).result = .error (.androidEnv e) ∧
    (exec .android ni sdt rd oie w).trace.dotCargoWritten = false ∧
    (exec .android ni sdt rd oie w).trace.androidGenInvoked = false ∧
    (exec .android ni sdt rd oie w).trace.openAttempted = false ∧
    (exec .android ni sdt rd oie w).trace.reports = [] := by
  obtain ⟨dc, hdc⟩ := hload
  obtain ⟨t, ht⟩ := htriple
  have h1 := exec_front_asset w hasset
  have h2 := exec_front_lldb w sdt hlldb
  simp [exec, hcfg, h1, h2, hdc, ht, henv, hsdk, ExecTrace.empty]

/-- C3 witness: the fatal world — a non-SDK/NDK Android environment
error — run with target Android. -/
theorem exec_android_env_fatal_witness :
    (exec .android false false true false wFatal).result =
      .error (.androidEnv { sdkOrNdkIssue := false, msg := "broken env" }) ∧
    (exec .android false false true false wFatal).trace.dotCargoWritten = false ∧
    (exec .android false false true false wFatal).trace.androidGenInvoked = false ∧
    (exec .android false false true false wFatal).trace.openAttempted = false ∧
    (exec .android false false true false wFatal).trace.reports = [] :=
  exec_android_env_fatal false false true false wFatal cfg0
    { sdkOrNdkIssue := false, msg := "broken env" } rfl (Or.inl rfl)
    (Or.inr (Or.inl rfl)) ⟨dc0, rfl⟩ ⟨"x86_64-unknown-linux-gnu", rfl⟩ rfl rfl

/-- C7: the debugger-extension-install step is attempted exactly when
dev-tools are not skipped AND the editor binary is detected; when the
editor binary is absent the step is silently skipped — the run is
unchanged whatever the install outcome would have been, and no
LldbExtensionInstall error can be produced. -/
theorem exec_debugger_extension_guard
    (target : Target) (ni sdt rd oie : Bool) (w : World) (cfg : Config)
    (hcfg : w.tauriConfig = .ok cfg)
    (hasset : w.assetDirIsDir = true ∨ w.createAssetDir = .ok ()) :
    ((exec target ni sdt rd oie w).trace.lldbAttempted = (!sdt && w.codePresent)) ∧
    (w.codePresent = false →
      (∀ x, exec target ni sdt rd oie { w with lldbInstall := x } =
        exec target ni sdt rd oie w) ∧
      (∀ c, (exec target ni sdt rd oie w).result ≠
        .error (.lldbExtensionInstall c))) := by
  have h1 := exec_front_asset w hasset
  constructor
  · simp only [exec, hcfg, h1, finishSteps]
    repeat' split
    all_goals simp [ExecTrace.empty]
  · intro hcode
    constructor
    · intro x
      simp [exec, hcode]
      repeat' split <;> simp [finishSteps]
    · intro c
      simp only [exec, hcfg, h1, finishSteps, hcode, Bool.and_false]
      repeat' split
      all_goals simp_all

/-- C7 witness: with dev-tools not skipped and the editor binary absent,
the debugger-extension step is not attempted. -/
theorem exec_debugger_extension_guard_witness :
    (exec .android false false true false wRecoverable).trace.lldbAttempted =
      (!false && wRecoverable.codePresent) :=
  (exec_debugger_extension_guard .android false false true false wRecoverable
    cfg0 rfl (Or.inl rfl)).1

/-- C10 witness: an array containing a non-string element fails all
three array helpers with the missing-array error. -/
theorem arrayHelpers_element_strings_witness :
    joinHelper (some (Json.arr [Json.str "a", Json.num 1])) =
      .error (.missingArray "join") ∧
    quoteAndJoinHelper (some (Json.arr [Json.str "a", Json.num 1])) =
      .error (.missingArray "quote-and-join") ∧
    quoteAndJoinColonHelper (some (Json.arr [Json.str "a", Json.num 1])) =
      .error (.missingArray "quote-and-join-colon-prefix") :=
  (arrayHelpers_element_strings [Json.str "a", Json.num 1]).1
    ⟨Json.num 1, List.Mem.tail _ (List.Mem.head _), rfl⟩
